import Mathlib

set_option maxRecDepth 20000

/-!
Verification of the LightRAG repository: a shallow embedding of the
text-gradient optimization subsystem, the object-count task pipelines, the
RAG use case, the base API client and the dataset loader, together with
theorems settling the specification claims about them.

String matching helpers are defined over `List Char`; the prompt template
constants are transcribed verbatim from
src/lightrag/lightrag/optim/text_grad/backend_engine_prompt.py.
-/

/-- `beginsWith needle hay` holds when `needle` is an initial segment of `hay`. -/
def beginsWith : List Char → List Char → Bool
  | [], _ => true
  | _ :: _, [] => false
  | a :: as, b :: bs => if a = b then beginsWith as bs else false

/-- `occursIn needle hay` holds when `needle` occurs contiguously inside `hay`. -/
def occursIn (needle : List Char) : List Char → Bool
  | [] => needle.isEmpty
  | c :: t => beginsWith needle (c :: t) || occursIn needle t

/-- Substring occurrence lifted to `String`. -/
def strOccurs (needle hay : String) : Bool :=
  occursIn needle.data hay.data

theorem beginsWith_append (xs ys : List Char) : beginsWith xs (xs ++ ys) = true := by
  induction xs with
  | nil => rfl
  | cons a as ih => simp [beginsWith, ih]

theorem beginsWith_self (xs : List Char) : beginsWith xs xs = true := by
  have h := beginsWith_append xs []
  simpa using h

theorem occursIn_of_beginsWith {n h : List Char} (hb : beginsWith n h = true) :
    occursIn n h = true := by
  cases h with
  | nil =>
    cases n with
    | nil => rfl
    | cons a as => simp [beginsWith] at hb
  | cons c t => simp [occursIn, hb]

theorem occursIn_cons {n t : List Char} (c : Char) (h : occursIn n t = true) :
    occursIn n (c :: t) = true := by
  simp [occursIn, h]

theorem beginsWith_append_of {n t : List Char} (b : List Char)
    (h : beginsWith n t = true) : beginsWith n (t ++ b) = true := by
  induction n generalizing t with
  | nil => rfl
  | cons x xs ih =>
    cases t with
    | nil => simp [beginsWith] at h
    | cons z zs =>
      simp only [beginsWith] at h ⊢
      by_cases hx : x = z
      · simp only [hx, if_pos rfl] at h ⊢
        simpa using ih (t := zs) h
      · simp [hx] at h

theorem occursIn_append_left {n a : List Char} (b : List Char)
    (h : occursIn n a = true) : occursIn n (a ++ b) = true := by
  induction a with
  | nil =>
    simp [occursIn, List.isEmpty_iff] at h
    subst h
    cases b with
    | nil => rfl
    | cons c t => simp [occursIn, beginsWith]
  | cons c t ih =>
    simp only [occursIn, Bool.or_eq_true] at h
    rcases h with h | h
    · exact occursIn_of_beginsWith (beginsWith_append_of b h)
    · exact occursIn_cons c (ih h)

theorem occursIn_append_right {n b : List Char} (a : List Char)
    (h : occursIn n b = true) : occursIn n (a ++ b) = true := by
  induction a with
  | nil => simpa using h
  | cons c t ih => exact occursIn_cons c ih

theorem strOccurs_append_left {n a : String} (b : String)
    (h : strOccurs n a = true) : strOccurs n (a ++ b) = true := by
  simp only [strOccurs, String.data_append]
  exact occursIn_append_left b.data h

theorem strOccurs_append_right {n b : String} (a : String)
    (h : strOccurs n b = true) : strOccurs n (a ++ b) = true := by
  simp only [strOccurs, String.data_append]
  exact occursIn_append_right a.data h

theorem strOccurs_self (s : String) : strOccurs s s = true :=
  occursIn_of_beginsWith (beginsWith_self s.data)
/-- Literal from src/lightrag/lightrag/optim/text_grad/backend_engine_prompt.py: objective section used at the start of the backpropagation chain (the parameter has no downstream gradient yet). -/
def OBJECTIVE_INSTRUCTION_BASE : String :=
  "<OBJECTIVE_FUNCTION>Your goal is to give feedback and criticism to the variable given the above evaluation output.\nOur only goal is to improve the above metric, and nothing else. </OBJECTIVE_FUNCTION>"

/-- Literal from backend_engine_prompt.py: objective section used when the downstream parameter already carries a gradient; it embeds the response_gradient placeholder. -/
def OBJECTIVE_INSTRUCTION_CHAIN : String :=
  "This conversation is part of a larger system. The <LM_OUTPUT> was later used as \x7b\x7bresponse_desc\x7d\x7d.\n<OBJECTIVE_FUNCTION>Your goal is to give feedback to the variable to address the following feedback on the LM_OUTPUT: \x7b\x7bresponse_gradient\x7d\x7d </OBJECTIVE_FUNCTION>"

/-- Literal from backend_engine_prompt.py: the full backward engine prompt template. -/
def FEEDBACK_ENGINE_TEMPLATE : String :=
  "<START_OF_SYSTEM_PROMPT>\nYou are the feedback(gradient) engine in a larger optimization system.\n\nYour goal is to give feedback to a variable in <VARIABLE> tags in order to improve the objective specified in <OBJECTIVE_FUNCTION> tags.\nThe variable may be solution to problems, prompt/instruction to langage model, code, or any other text-based variable.\n\x7b#Task specifics#\x7d\nRemember:\n- Pay attention to the role description of the variable, and the context in which it is used.\n- You should assume that the variable will be used in a similar context in the future.\n\x7b#- Only provide strategies, explanations, and methods to change in the variable.#\x7d\n- DO NOT propose a new version of the variable, that will be the job of the optimizer.\n- Your only job is to send feedback and criticism (compute \x27gradients\x27).\n    For instance, feedback can be in the form of \x27Since language models have the X failure mode...\x27, \x27Adding X can fix this error because...\x27, \x27Removing X can improve the objective function because...\x27, \x27Changing X to Y would fix the mistake ...\x27, that gets at the downstream objective.\n- If a variable is already working well (e.g. the objective function is perfect, an evaluation shows the response is accurate), you should respond with \"It works well in this case, no critical feedback.\"\n- BE CONCISE, CRITICAL, and CREATIVE.\n<END_OF_SYSTEM_PROMPT>\n<START_OF_USER_PROMPT>\n\x7b\x7b \"\\\"\\\"\\\"\" \x7d\x7d\x7b\x7bconversation_sec\x7d\x7d\x7b\x7b \"\\\"\\\"\\\"\" \x7d\x7d\n\n\x7b\x7bobjective_instruction_sec\x7d\x7d\n\n<END_OF_USER_PROMPT>"

/-- Slice of FEEDBACK_ENGINE_TEMPLATE used to locate its placeholders and Jinja comments. -/
def FET_sysA : String :=
  "<START_OF_SYSTEM_PROMPT>\nYou are the feedback(gradient) engine in a larger optimization system.\n\nYour goal is to give feedback to a variable in <VARIABLE> tags in order to improve the objective specified in <OBJECTIVE_FUNCTION> tags.\nThe variable may be solution to problems, prompt/instruction to langage model, code, or any other text-based variable.\n"

/-- Slice of FEEDBACK_ENGINE_TEMPLATE used to locate its placeholders and Jinja comments. -/
def FET_comment1 : String :=
  "\x7b#Task specifics#\x7d"

/-- Slice of FEEDBACK_ENGINE_TEMPLATE used to locate its placeholders and Jinja comments. -/
def FET_sysB : String :=
  "\nRemember:\n- Pay attention to the role description of the variable, and the context in which it is used.\n- You should assume that the variable will be used in a similar context in the future.\n"

/-- Slice of FEEDBACK_ENGINE_TEMPLATE used to locate its placeholders and Jinja comments. -/
def FET_comment2 : String :=
  "\x7b#- Only provide strategies, explanations, and methods to change in the variable.#\x7d"

/-- Slice of FEEDBACK_ENGINE_TEMPLATE used to locate its placeholders and Jinja comments. -/
def FET_sysC : String :=
  "\n- DO NOT propose a new version of the variable, that will be the job of the optimizer.\n- Your only job is to send feedback and criticism (compute \x27gradients\x27).\n    For instance, feedback can be in the form of \x27Since language models have the X failure mode...\x27, \x27Adding X can fix this error because...\x27, \x27Removing X can improve the objective function because...\x27, \x27Changing X to Y would fix the mistake ...\x27, that gets at the downstream objective.\n- If a variable is already working well (e.g. the objective function is perfect, an evaluation shows the response is accurate), you should respond with \"It works well in this case, no critical feedback.\"\n- BE CONCISE, CRITICAL, and CREATIVE.\n<END_OF_SYSTEM_PROMPT>"

/-- Slice of FEEDBACK_ENGINE_TEMPLATE used to locate its placeholders and Jinja comments. -/
def FET_userMid : String :=
  "\n<START_OF_USER_PROMPT>\n"

/-- Slice of FEEDBACK_ENGINE_TEMPLATE used to locate its placeholders and Jinja comments. -/
def FET_qtok : String :=
  "\x7b\x7b \"\\\"\\\"\\\"\" \x7d\x7d"

/-- Slice of FEEDBACK_ENGINE_TEMPLATE used to locate its placeholders and Jinja comments. -/
def FET_pconv : String :=
  "\x7b\x7bconversation_sec\x7d\x7d"

/-- Slice of FEEDBACK_ENGINE_TEMPLATE used to locate its placeholders and Jinja comments. -/
def FET_pobj : String :=
  "\x7b\x7bobjective_instruction_sec\x7d\x7d"

/-- Slice of FEEDBACK_ENGINE_TEMPLATE used to locate its placeholders and Jinja comments. -/
def FET_gap : String :=
  "\n\n"

/-- Slice of FEEDBACK_ENGINE_TEMPLATE used to locate its placeholders and Jinja comments. -/
def FET_tail : String :=
  "\n\n<END_OF_USER_PROMPT>"

/-- Slice of OBJECTIVE_INSTRUCTION_CHAIN used to locate its two placeholders. -/
def OIC_partA : String :=
  "This conversation is part of a larger system. The <LM_OUTPUT> was later used as "

/-- Slice of OBJECTIVE_INSTRUCTION_CHAIN used to locate its two placeholders. -/
def OIC_pdesc : String :=
  "\x7b\x7bresponse_desc\x7d\x7d"

/-- Slice of OBJECTIVE_INSTRUCTION_CHAIN used to locate its two placeholders. -/
def OIC_partB : String :=
  ".\n<OBJECTIVE_FUNCTION>Your goal is to give feedback to the variable to address the following feedback on the LM_OUTPUT: "

/-- Slice of OBJECTIVE_INSTRUCTION_CHAIN used to locate its two placeholders. -/
def OIC_pgrad : String :=
  "\x7b\x7bresponse_gradient\x7d\x7d"

/-- Slice of OBJECTIVE_INSTRUCTION_CHAIN used to locate its two placeholders. -/
def OIC_partC : String :=
  " </OBJECTIVE_FUNCTION>"


/-- Boolean equality test on character lists, tail recursive so that concrete
instances evaluate without deep proof terms. -/
def eqChars : List Char → List Char → Bool
  | [], [] => true
  | a :: as, b :: bs => if a = b then eqChars as bs else false
  | _, _ => false

theorem eqChars_eq : ∀ {xs ys : List Char}, eqChars xs ys = true → xs = ys
  | [], [], _ => rfl
  | a :: as, b :: bs, h => by
    simp only [eqChars] at h
    by_cases hab : a = b
    · simp only [hab, if_pos rfl] at h
      exact congrArg₂ List.cons hab (eqChars_eq h)
    · simp [hab] at h
  | [], _ :: _, h => by simp [eqChars] at h
  | _ :: _, [], h => by simp [eqChars] at h

theorem strEq_of_eqChars {a b : String} (h : eqChars a.data b.data = true) : a = b := by
  cases a; cases b; exact congrArg String.mk (eqChars_eq h)

theorem strAppend_assoc (a b c : String) : a ++ b ++ c = a ++ (b ++ c) := by
  cases a with
  | mk x =>
    cases b with
    | mk y =>
      cases c with
      | mk z =>
        show String.mk ((x ++ y) ++ z) = String.mk (x ++ (y ++ z))
        exact congrArg String.mk (List.append_assoc x y z)

/-- The system section of the rendered feedback engine prompt: the template
text between the START_OF_SYSTEM_PROMPT and END_OF_SYSTEM_PROMPT markers with
the two Jinja comments removed. -/
def renderedFeedbackSystemSection : String :=
  FET_sysA ++ FET_sysB ++ FET_sysC

/-- Modelled from the spec: the Jinja2 rendering of FEEDBACK_ENGINE_TEMPLATE
performed by the Prompt component during the backward pass (the renderer is
not under src/). Rendering drops the two Jinja comments, renders the quote
token as three double quotes, and splices the conversation section and the
objective instruction section at their placeholders. -/
def renderFeedbackEngine (conversation_sec objective_instruction_sec : String) : String :=
  renderedFeedbackSystemSection ++ FET_userMid ++ "\"\"\"" ++ conversation_sec ++ "\"\"\"" ++
    FET_gap ++ objective_instruction_sec ++ FET_tail

/-- Modelled from the spec: during the backward pass the feedback engine
chooses its objective section (the chooser, Generator.backward, is not under
src/). When the downstream parameter already carries a gradient it renders
OBJECTIVE_INSTRUCTION_CHAIN, splicing the downstream gradient text at the
response_gradient placeholder and the response description at the
response_desc placeholder; at the chain start it uses
OBJECTIVE_INSTRUCTION_BASE unchanged. -/
def objective_instruction_sec (response_desc : String) : Option String → String
  | some response_gradient =>
      OIC_partA ++ response_desc ++ OIC_partB ++ response_gradient ++ OIC_partC
  | none => OBJECTIVE_INSTRUCTION_BASE

/-- C1: the feedback engine prompt rendered from FEEDBACK_ENGINE_TEMPLATE
contains a system section instructing the engine to only produce
feedback/criticism (gradients) and never propose a new value; when the
downstream parameter carries a gradient the objective section is
OBJECTIVE_INSTRUCTION_CHAIN with the downstream gradient text embedded at the
response_gradient placeholder, and at the chain start it is
OBJECTIVE_INSTRUCTION_BASE, which asks for feedback on the evaluation
output. -/
theorem feedback_engine_prompt_chains_gradients :
    (FEEDBACK_ENGINE_TEMPLATE =
        FET_sysA ++ FET_comment1 ++ FET_sysB ++ FET_comment2 ++ FET_sysC ++
          FET_userMid ++ FET_qtok ++ FET_pconv ++ FET_qtok ++ FET_gap ++ FET_pobj ++ FET_tail)
    ∧ (OBJECTIVE_INSTRUCTION_CHAIN =
        OIC_partA ++ OIC_pdesc ++ OIC_partB ++ OIC_pgrad ++ OIC_partC)
    ∧ strOccurs
        "DO NOT propose a new version of the variable, that will be the job of the optimizer."
        renderedFeedbackSystemSection = true
    ∧ strOccurs
        "Your only job is to send feedback and criticism (compute \x27gradients\x27)."
        renderedFeedbackSystemSection = true
    ∧ (∀ conversation_sec obj_sec : String,
        strOccurs
          "DO NOT propose a new version of the variable, that will be the job of the optimizer."
          (renderFeedbackEngine conversation_sec obj_sec) = true
        ∧ strOccurs
            "Your only job is to send feedback and criticism (compute \x27gradients\x27)."
            (renderFeedbackEngine conversation_sec obj_sec) = true
        ∧ ∃ rest : String,
            renderFeedbackEngine conversation_sec obj_sec =
              renderedFeedbackSystemSection ++ rest)
    ∧ (∀ response_desc response_gradient : String,
        objective_instruction_sec response_desc (some response_gradient) =
          OIC_partA ++ response_desc ++ OIC_partB ++ response_gradient ++ OIC_partC
        ∧ strOccurs response_gradient
            (objective_instruction_sec response_desc (some response_gradient)) = true)
    ∧ (∀ response_desc : String,
        objective_instruction_sec response_desc none = OBJECTIVE_INSTRUCTION_BASE)
    ∧ strOccurs OIC_pgrad OBJECTIVE_INSTRUCTION_CHAIN = true
    ∧ strOccurs
        "give feedback and criticism to the variable given the above evaluation output"
        OBJECTIVE_INSTRUCTION_BASE = true := by
  refine ⟨strEq_of_eqChars (by rfl), strEq_of_eqChars (by rfl), by rfl, by rfl, ?_, ?_, ?_, by rfl, by rfl⟩
  · intro conversation_sec obj_sec
    refine ⟨?_, ?_, ?_⟩
    · exact strOccurs_append_left _ (strOccurs_append_left _ (strOccurs_append_left _
        (strOccurs_append_left _ (strOccurs_append_left _ (strOccurs_append_left _
          (strOccurs_append_left _ (by rfl)))))))
    · exact strOccurs_append_left _ (strOccurs_append_left _ (strOccurs_append_left _
        (strOccurs_append_left _ (strOccurs_append_left _ (strOccurs_append_left _
          (strOccurs_append_left _ (by rfl)))))))
    · refine ⟨FET_userMid ++ ("\"\"\"" ++ (conversation_sec ++ ("\"\"\"" ++
        (FET_gap ++ (obj_sec ++ FET_tail))))), ?_⟩
      simp only [renderFeedbackEngine, strAppend_assoc]
  · intro response_desc response_gradient
    refine ⟨rfl, ?_⟩
    exact strOccurs_append_left _ (strOccurs_append_right _ (strOccurs_self response_gradient))
  · intro response_desc
    rfl

/-- Modelled from the spec: the gradient store of an optimizer Parameter
(lightrag/optim/parameter.py is not under src/). The backward pass attaches
pieces of critique text to upstream parameters; per the spec, gradient
accumulation is concatenated text. -/
structure ParamGradients where
  gradients : List String
deriving DecidableEq

/-- Modelled from the spec: the backward pass attaches one piece of feedback
text to the parameter by appending it to the gradient list. -/
def ParamGradients.attach (p : ParamGradients) (feedback : String) : ParamGradients :=
  { gradients := p.gradients ++ [feedback] }

/-- Attaching a sequence of feedback texts, in the order they arrive. -/
def ParamGradients.attachAll (p : ParamGradients) (feedbacks : List String) : ParamGradients :=
  feedbacks.foldl ParamGradients.attach p

/-- Modelled from the spec: the accumulated gradient of a parameter is the
concatenation of all attached gradient texts. -/
def ParamGradients.accumulated (p : ParamGradients) : String :=
  String.join p.gradients

theorem attachAll_gradients (p : ParamGradients) (feedbacks : List String) :
    (p.attachAll feedbacks).gradients = p.gradients ++ feedbacks := by
  induction feedbacks generalizing p with
  | nil => simp [ParamGradients.attachAll]
  | cons f fs ih =>
    show ((p.attach f).attachAll fs).gradients = p.gradients ++ (f :: fs)
    rw [ih]
    simp [ParamGradients.attach]

/-- C2: textual gradient accumulation: a parameter that receives several
pieces of feedback during the backward pass ends up with exactly those
gradient texts, in attachment order, and its accumulated gradient is their
concatenation; no gradient text is dropped or merged. -/
theorem gradient_accumulation_concatenates_in_order :
    ∀ feedbacks : List String, 1 < feedbacks.length →
      (ParamGradients.attachAll { gradients := [] } feedbacks).gradients = feedbacks
      ∧ (ParamGradients.attachAll { gradients := [] } feedbacks).accumulated =
          String.join feedbacks := by
  intro feedbacks _
  constructor
  · simpa using attachAll_gradients { gradients := [] } feedbacks
  · show String.join (ParamGradients.attachAll { gradients := [] } feedbacks).gradients =
        String.join feedbacks
    rw [attachAll_gradients]
    simp

/-- Witness for C2 at a concrete two-element feedback list. -/
theorem gradient_accumulation_concatenates_in_order_witness :
    (ParamGradients.attachAll { gradients := [] } ["first critique", "second critique"]).gradients
      = ["first critique", "second critique"]
    ∧ (ParamGradients.attachAll { gradients := [] } ["first critique", "second critique"]).accumulated
      = String.join ["first critique", "second critique"] :=
  gradient_accumulation_concatenates_in_order ["first critique", "second critique"] (by decide)

/-- Modelled from the spec: the parameter type tags set by the task pipelines
(lightrag/optim/parameter.py is not under src/). -/
inductive ParameterType
  | NONE
  | DEMOS
deriving DecidableEq

/-- Modelled from the spec: a trainable node of the parameter graph
(lightrag/optim/parameter.py is not under src/). Fields are the keyword
arguments the source call sites pass to Parameter; the source keyword alias
is rendered here as param_alias because alias is reserved in Lean. -/
structure Parameter where
  param_alias : Option String := none
  data : Option String := none
  role_desc : String := ""
  requires_opt : Bool := true
  param_type : ParameterType := ParameterType.NONE
  instruction_to_optimizer : Option String := none
  instruction_to_backward_engine : Option String := none
deriving DecidableEq

/-- A prompt_kwargs value: a plain string or a Parameter. -/
inductive PromptKwarg
  | str (value : String)
  | param (p : Parameter)
deriving DecidableEq

/-- Modelled from the spec: the Generator component (lightrag/core/generator.py
is not under src/) stores the template and the prompt_kwargs mapping given at
construction; Parameters placed there are exposed to the optimization
subsystem. Model client plumbing and output processors are not represented. -/
structure Generator where
  template : String
  prompt_kwargs : List (String × PromptKwarg)
deriving DecidableEq

/-- Embedding of the system_prompt Parameter built by
ObjectCountTaskOriginal.__init__ (task.py). -/
def ObjectCountTaskOriginal.system_prompt : Parameter :=
  { param_alias := some "task_instruction"
    data := some "You will answer a reasoning question. Think step by step. The last line of your response should be of the following format: \x27Answer: $VALUE\x27 where VALUE is a numerical value."
    role_desc := "To give task instruction to the language model in the system prompt"
    requires_opt := true
    param_type := ParameterType.NONE
    instruction_to_optimizer := some "You can show some examples if you think that will help." }

/-- Embedding of the Generator built by ObjectCountTaskOriginal.__init__: the
one message template and the prompt_kwargs registering the system prompt. -/
def ObjectCountTaskOriginal.llm_counter : Generator :=
  { template := "<START_OF_SYSTEM_PROMPT>\x7b\x7bsystem_prompt\x7d\x7d<END_OF_SYSTEM_PROMPT>\x7b\x7binput_str\x7d\x7d"
    prompt_kwargs := [("system_prompt", PromptKwarg.param ObjectCountTaskOriginal.system_prompt)] }

/-- Literal from task.py: the module level few_shot_template. -/
def few_shot_template : String :=
  "<START_OF_SYSTEM_PROMPT>\n\x7b\x7bsystem_prompt\x7d\x7d\n\x7b# Few shot demos #\x7d\n\x7b% if few_shot_demos is not none %\x7d\nHere are some examples:\n\x7b\x7bfew_shot_demos\x7d\x7d\n\x7b% endif %\x7d\n<END_OF_SYSTEM_PROMPT>\n<START_OF_USER>\n\x7b\x7binput_str\x7d\x7d\n<END_OF_USER>\n"

/-- Embedding of the system_prompt Parameter built by
ObjectCountTaskFewShot.__init__ (task.py); its instruction_to_optimizer line
is commented out in the source. -/
def ObjectCountTaskFewShot.system_prompt : Parameter :=
  { param_alias := some "task_instruction"
    data := some "You will answer a reasoning question. Think step by step. The last line of your response should be of the following format: \x27Answer: $VALUE\x27 where VALUE is a numerical value."
    role_desc := "To give task instruction to the language model in the system prompt"
    requires_opt := true
    param_type := ParameterType.NONE }

/-- Embedding of the _few_shot_demos Parameter built by
ObjectCountTaskFewShot.__init__: data starts as None. -/
def ObjectCountTaskFewShot.few_shot_demos : Parameter :=
  { param_alias := some "few_shot_demos"
    data := none
    role_desc := "To provide few shot demos to the language model"
    requires_opt := true
    param_type := ParameterType.DEMOS }

/-- Embedding of the Generator built by ObjectCountTaskFewShot.__init__. -/
def ObjectCountTaskFewShot.llm_counter : Generator :=
  { template := few_shot_template
    prompt_kwargs :=
      [("system_prompt", PromptKwarg.param ObjectCountTaskFewShot.system_prompt),
       ("few_shot_demos", PromptKwarg.param ObjectCountTaskFewShot.few_shot_demos)] }

/-- Embedding of the system_prompt Parameter built by
ObjectCountTask.__init__ (task.py); its param_type line is commented out in
the source, so the Parameter default applies. -/
def ObjectCountTask.system_prompt : Parameter :=
  { param_alias := some "task_instruction"
    data := some "You will answer a reasoning question. Think step by step."
    role_desc := "To give task instruction to the language model in the system prompt"
    requires_opt := true }

/-- Embedding of the output_format_str Parameter built by
ObjectCountTask.__init__; the JSON signature produced at run time by
ObjectCountPredData.to_json_signature (DataClass is not under src/) is passed
in as an argument. -/
def ObjectCountTask.output_format_str (json_signature : String) : Parameter :=
  { param_alias := some "output_format"
    data := some ("Respond with valid JSON object with the following schema:\n" ++ json_signature)
    role_desc := "To specify the LLM output format"
    requires_opt := true
    instruction_to_optimizer := some "Do not change the fields in the JSON object. Only improve on the field descriptions."
    instruction_to_backward_engine := some "Do not change the fields in the JSON object. Only improve on the field descriptions." }

/-- Embedding of the Generator built by ObjectCountTask.__init__. -/
def ObjectCountTask.llm_counter (json_signature : String) : Generator :=
  { template := "<START_OF_SYSTEM_PROMPT>\x7b\x7bsystem_prompt\x7d\x7d<OUTPUT_FORMAT> \x7b\x7boutput_format_str\x7d\x7d</OUTPUT_FORMAT></END_OF_SYSTEM_PROMPT>\x7b\x7binput_str\x7d\x7d"
    prompt_kwargs :=
      [("system_prompt", PromptKwarg.param ObjectCountTask.system_prompt),
       ("output_format_str", PromptKwarg.param (ObjectCountTask.output_format_str json_signature))] }

/-- C3: in each of the three object-count task pipelines the system prompt is
a Parameter with requires_opt set, registered under the key system_prompt in
the prompt_kwargs of the Generator the task builds, so it is exposed to the
optimization subsystem rather than being a plain string. -/
theorem tasks_register_trainable_system_prompt :
    (List.lookup "system_prompt" ObjectCountTaskOriginal.llm_counter.prompt_kwargs =
        some (PromptKwarg.param ObjectCountTaskOriginal.system_prompt)
      ∧ ObjectCountTaskOriginal.system_prompt.requires_opt = true)
    ∧ (List.lookup "system_prompt" ObjectCountTaskFewShot.llm_counter.prompt_kwargs =
        some (PromptKwarg.param ObjectCountTaskFewShot.system_prompt)
      ∧ ObjectCountTaskFewShot.system_prompt.requires_opt = true)
    ∧ (∀ json_signature : String,
        List.lookup "system_prompt" (ObjectCountTask.llm_counter json_signature).prompt_kwargs =
          some (PromptKwarg.param ObjectCountTask.system_prompt)
        ∧ ObjectCountTask.system_prompt.requires_opt = true) :=
  ⟨⟨rfl, rfl⟩, ⟨rfl, rfl⟩, fun _ => ⟨rfl, rfl⟩⟩

/-- Embedding of the ObjectCountPredData dataclass (bhh_object_count/data.py):
structured prediction with a reasoning string and a numerical answer. -/
structure ObjectCountPredData where
  thought : String
  answer : Int
deriving DecidableEq

/-- Modelled from the spec: the output of a Generator call, reduced to its
processed data field, which the failure path leaves as None. -/
structure GeneratorOutput (α : Type) where
  data : Option α
deriving DecidableEq

/-- The value ObjectCountTask*.call returns: in training mode the raw
generator output, otherwise an integer answer. -/
inductive TaskCallResult (α : Type)
  | answer (value : Int)
  | trainingOutput (output : GeneratorOutput α)
deriving DecidableEq

/-- Embedding of ObjectCountTaskOriginal.call (task.py), abstracted over the
generator output for the question: when not training, a missing data field
yields the sentinel -1 and otherwise the data (already an integer after the
parse_integer_answer output processor) is returned through int(). -/
def ObjectCountTaskOriginal.callOn (training : Bool) (output : GeneratorOutput Int) :
    TaskCallResult Int :=
  if training then TaskCallResult.trainingOutput output
  else
    match output.data with
    | none => TaskCallResult.answer (-1)
    | some d => TaskCallResult.answer d

/-- Embedding of ObjectCountTaskFewShot.call (task.py): identical eval-mode
handling of the generator output. -/
def ObjectCountTaskFewShot.callOn (training : Bool) (output : GeneratorOutput Int) :
    TaskCallResult Int :=
  if training then TaskCallResult.trainingOutput output
  else
    match output.data with
    | none => TaskCallResult.answer (-1)
    | some d => TaskCallResult.answer d

/-- Embedding of ObjectCountTask.call (task.py): structured output; in eval
mode the answer field of the parsed data is returned, the missing-data case
yields -1. -/
def ObjectCountTask.callOn (training : Bool) (output : GeneratorOutput ObjectCountPredData) :
    TaskCallResult ObjectCountPredData :=
  if training then TaskCallResult.trainingOutput output
  else
    match output.data with
    | none => TaskCallResult.answer (-1)
    | some d => TaskCallResult.answer d.answer

/-- C10: for each task class, outside training mode call returns the sentinel
-1 whenever the generator output data field is None (no exception), and
otherwise an integer derived from the data field: the data itself for the two
string-output tasks, the answer field for the structured-output task. -/
theorem tasks_eval_mode_sentinel_and_answer :
    (ObjectCountTaskOriginal.callOn false { data := none } = TaskCallResult.answer (-1))
    ∧ (∀ d : Int,
        ObjectCountTaskOriginal.callOn false { data := some d } = TaskCallResult.answer d)
    ∧ (ObjectCountTaskFewShot.callOn false { data := none } = TaskCallResult.answer (-1))
    ∧ (∀ d : Int,
        ObjectCountTaskFewShot.callOn false { data := some d } = TaskCallResult.answer d)
    ∧ (ObjectCountTask.callOn false { data := none } = TaskCallResult.answer (-1))
    ∧ (∀ d : ObjectCountPredData,
        ObjectCountTask.callOn false { data := some d } = TaskCallResult.answer d.answer) :=
  ⟨rfl, fun _ => rfl, rfl, fun _ => rfl, rfl, fun _ => rfl⟩

/-- Literal from llm_text_loss.py: the template of the loss Generator. -/
def TEXT_LOSS_TEMPLATE : String :=
  "<START_OF_SYSTEM_PROMPT>\n\x7b\x7beval_system_prompt\x7d\x7d\n<END_OF_SYSTEM_PROMPT>\n<USER>\n\x7b\x7beval_user_prompt\x7d\x7d\n</USER>\n"

/-- Modelled from the spec: the forward behavior of a Generator
(lightrag/core/generator.py is not under src/), abstracted as a function from
the call arguments to the output Parameter of the graph. -/
structure GeneratorForward (Args : Type) where
  forward : Args → Parameter

/-- Embedding of the LLMAsTextLoss component (llm_text_loss.py): the stored
prompt_kwargs and the internal loss Generator. -/
structure LLMAsTextLoss (Args : Type) where
  prompt_kwargs : List (String × PromptKwarg)
  loss_llm : GeneratorForward Args

/-- Embedding of LLMAsTextLoss.forward: it returns the loss Generator forward
result unchanged. -/
def LLMAsTextLoss.forward {Args : Type} (l : LLMAsTextLoss Args) (args : Args) : Parameter :=
  l.loss_llm.forward args

/-- Embedding of LLMAsTextLoss.__call__: it delegates to forward. -/
def LLMAsTextLoss.callSelf {Args : Type} (l : LLMAsTextLoss Args) (args : Args) : Parameter :=
  l.forward args

/-- C4: for every argument list, LLMAsTextLoss.forward, and equally its
__call__, return exactly what the internal loss Generator forward returns on
the same arguments, with no post-processing by the loss component. -/
theorem llm_text_loss_forward_delegates :
    ∀ (Args : Type) (l : LLMAsTextLoss Args) (args : Args),
      l.forward args = l.loss_llm.forward args
      ∧ l.callSelf args = l.loss_llm.forward args :=
  fun _ _ _ => ⟨rfl, rfl⟩

/-- Embedding of the loop body of LLMAsTextLoss.__init__ (llm_text_loss.py):
a string value is replaced by a non trainable Parameter whose data is the
string and whose role_desc is the key; any other value is kept. -/
def llmTextLossInitEntry : String × PromptKwarg → String × PromptKwarg
  | (key, PromptKwarg.str value) =>
      (key, PromptKwarg.param { data := some value, requires_opt := false, role_desc := key })
  | (key, PromptKwarg.param p) => (key, PromptKwarg.param p)

/-- Embedding of the LLMAsTextLoss.__init__ loop over the copied dict. -/
def llmTextLossInitLoop : List (String × PromptKwarg) → List (String × PromptKwarg)
  | [] => []
  | kv :: rest => llmTextLossInitEntry kv :: llmTextLossInitLoop rest

/-- Embedding of LLMAsTextLoss.__init__ with explicit state passing: from the
callers prompt_kwargs dict it produces the callers dict as observable after
the call together with the dict stored on the component. The source runs its
loop on a deepcopy, so the caller side comes back unchanged. -/
def LLMAsTextLoss.initEffect (caller_prompt_kwargs : List (String × PromptKwarg)) :
    List (String × PromptKwarg) × List (String × PromptKwarg) :=
  let copied := caller_prompt_kwargs
  (caller_prompt_kwargs, llmTextLossInitLoop copied)

theorem llmTextLossInitLoop_eq_map (pk : List (String × PromptKwarg)) :
    llmTextLossInitLoop pk = pk.map llmTextLossInitEntry := by
  induction pk with
  | nil => rfl
  | cons kv rest ih => simp [llmTextLossInitLoop, ih]

/-- C9: LLMAsTextLoss.__init__ leaves the callers prompt_kwargs dict
unchanged, and in the stored copy every string value becomes a Parameter
holding that string with requires_opt off and role_desc the key, while every
non-string value is kept as it is. -/
theorem llm_text_loss_init_copies_and_wraps :
    ∀ pk : List (String × PromptKwarg),
      (LLMAsTextLoss.initEffect pk).1 = pk
      ∧ (LLMAsTextLoss.initEffect pk).2 = pk.map llmTextLossInitEntry
      ∧ (∀ (key value : String),
          ∃ p : Parameter,
            llmTextLossInitEntry (key, PromptKwarg.str value) = (key, PromptKwarg.param p)
            ∧ p.data = some value ∧ p.requires_opt = false ∧ p.role_desc = key)
      ∧ (∀ (key : String) (p : Parameter),
          llmTextLossInitEntry (key, PromptKwarg.param p) = (key, PromptKwarg.param p)) :=
  fun pk =>
    ⟨rfl, llmTextLossInitLoop_eq_map pk,
      fun key value =>
        ⟨{ data := some value, requires_opt := false, role_desc := key }, rfl, rfl, rfl, rfl⟩,
      fun _ _ => rfl⟩

/-- Modelled from the spec: the RetrieverOutput record (core/component.py is
not under src/), abstracted to its retrieved chunk texts. -/
structure RetrieverOutput where
  chunks : List String
deriving DecidableEq

/-- The query argument of RAG.retrieve: a single string or a list of
strings. -/
inductive RAGQuery
  | single (query : String)
  | batch (queries : List String)
deriving DecidableEq

/-- The value RAG.retrieve returns: a single optional RetrieverOutput for a
string query, the retriever list otherwise. -/
inductive RAGRetrieved
  | single (result : Option RetrieverOutput)
  | batch (results : List RetrieverOutput)
deriving DecidableEq

/-- Embedding of the RAG component (use_cases/simple_rag.py). The FAISS
retriever and the generator are not under src/ and are abstracted as
functions: the retriever maps a query to its list result, and generatorCall
stands for generator.call with the query as input and the context in
prompt_kwargs. -/
structure RAG (GenOut : Type) where
  retriever : RAGQuery → List RetrieverOutput
  generatorCall : String → RAGRetrieved → GenOut

/-- Embedding of RAG.retrieve: for a string query whose retriever result is a
list, the first element is returned, or None when the list is empty; other
inputs pass the retriever result through. -/
def RAG.retrieve {GenOut : Type} (rag : RAG GenOut) (query_or_queries : RAGQuery) :
    RAGRetrieved :=
  let retrieved := rag.retriever query_or_queries
  match query_or_queries with
  | RAGQuery.single _ => RAGRetrieved.single retrieved.head?
  | RAGQuery.batch _ => RAGRetrieved.batch retrieved

/-- Embedding of RAG.generate: it calls the generator on the query with the
context placed in prompt_kwargs. -/
def RAG.generate {GenOut : Type} (rag : RAG GenOut) (query : String)
    (context : RAGRetrieved) : GenOut :=
  rag.generatorCall query context

/-- Embedding of RAG.call: retrieve then generate on the retrieved context. -/
def RAG.callOn {GenOut : Type} (rag : RAG GenOut) (query : String) : GenOut :=
  let context_str := rag.retrieve (RAGQuery.single query)
  rag.generate query context_str

/-- C5: RAG.call is retrieve-then-generate: for every query string it returns
generate(query, retrieve(query)), and retrieve on a single string query
returns a single optional RetrieverOutput, namely the first element of the
retriever list result, or None when that list is empty, rather than a
list. -/
theorem rag_call_is_retrieve_then_generate :
    ∀ (GenOut : Type) (rag : RAG GenOut) (query : String),
      rag.callOn query = rag.generate query (rag.retrieve (RAGQuery.single query))
      ∧ rag.retrieve (RAGQuery.single query) =
          RAGRetrieved.single (rag.retriever (RAGQuery.single query)).head?
      ∧ (rag.retriever (RAGQuery.single query) = [] →
          rag.retrieve (RAGQuery.single query) = RAGRetrieved.single none)
      ∧ (∀ (r : RetrieverOutput) (rest : List RetrieverOutput),
          rag.retriever (RAGQuery.single query) = r :: rest →
            rag.retrieve (RAGQuery.single query) = RAGRetrieved.single (some r)) := by
  intro GenOut rag query
  refine ⟨rfl, rfl, ?_, ?_⟩
  · intro h
    simp [RAG.retrieve, h]
  · intro r rest h
    simp [RAG.retrieve, h]

/-- Witness for C5: the empty-retrieval and nonempty-retrieval hypotheses
discharged on concrete RAG instances. -/
theorem rag_call_is_retrieve_then_generate_witness :
    ({ retriever := fun _ => [], generatorCall := fun _ _ => () } : RAG Unit).retrieve
        (RAGQuery.single "what") = RAGRetrieved.single none
    ∧ ({ retriever := fun _ => [{ chunks := ["ctx"] }], generatorCall := fun _ _ => () } :
        RAG Unit).retrieve (RAGQuery.single "what") =
          RAGRetrieved.single (some { chunks := ["ctx"] }) :=
  ⟨(rag_call_is_retrieve_then_generate Unit
      { retriever := fun _ => [], generatorCall := fun _ _ => () } "what").2.2.1 rfl,
   (rag_call_is_retrieve_then_generate Unit
      { retriever := fun _ => [{ chunks := ["ctx"] }], generatorCall := fun _ _ => () } "what")
      |>.2.2.2 { chunks := ["ctx"] } [] rfl⟩

/-- Embedding of a raised Python exception: its type name and message. -/
structure PyError where
  excType : String
  msg : String
deriving DecidableEq

/-- Result of a Python call that may raise. -/
inductive PyResult (α : Type)
  | ok (value : α)
  | raised (e : PyError)
deriving DecidableEq

/-- Embedding of the APIClient state (core/api_client.py): the sync and async
client handles, whose concrete type is provider specific and abstracted. -/
structure APIClient (Client : Type) where
  sync_client : Option Client
  async_client : Option Client

/-- Embedding of APIClient.__init__: both client handles are set to None. -/
def APIClient.initClient (Client : Type) : APIClient Client :=
  { sync_client := none, async_client := none }

/-- Embedding of APIClient._init_sync_client: always raises
NotImplementedError; className stands for type(self).__name__. -/
def APIClient.init_sync_client (className : String) : PyResult Unit :=
  PyResult.raised
    { excType := "NotImplementedError"
      msg := className ++ " must implement _init_sync_client method" }

/-- Embedding of APIClient._init_async_client: always raises
NotImplementedError. -/
def APIClient.init_async_client (className : String) : PyResult Unit :=
  PyResult.raised
    { excType := "NotImplementedError"
      msg := className ++ " must implement _init_async_client method" }

/-- Embedding of APIClient.call: always raises NotImplementedError (its
message mentions _call). -/
def APIClient.callBase (className : String) : PyResult Unit :=
  PyResult.raised
    { excType := "NotImplementedError"
      msg := className ++ " must implement _call method" }

/-- Embedding of APIClient.convert_inputs_to_api_kwargs: always raises
NotImplementedError. -/
def APIClient.convert_inputs_to_api_kwargs (className : String) : PyResult Unit :=
  PyResult.raised
    { excType := "NotImplementedError"
      msg := className ++ " must implement _combine_input_and_model_kwargs method" }

/-- Embedding of APIClient.parse_chat_completion: always raises
NotImplementedError. -/
def APIClient.parse_chat_completion (className : String) : PyResult Unit :=
  PyResult.raised
    { excType := "NotImplementedError"
      msg := className ++ " must implement parse_chat_completion method" }

/-- C6: the base APIClient is a pure plug-in interface: after __init__ both
client handles are None, and each of the five abstract methods raises
NotImplementedError whose message starts with the concrete class name, so
only subclasses can perform API calls. -/
theorem api_client_base_is_abstract :
    ∀ (Client : Type) (className : String),
      (APIClient.initClient Client).sync_client = none
      ∧ (APIClient.initClient Client).async_client = none
      ∧ APIClient.init_sync_client className =
          PyResult.raised
            { excType := "NotImplementedError"
              msg := className ++ " must implement _init_sync_client method" }
      ∧ APIClient.init_async_client className =
          PyResult.raised
            { excType := "NotImplementedError"
              msg := className ++ " must implement _init_async_client method" }
      ∧ APIClient.callBase className =
          PyResult.raised
            { excType := "NotImplementedError"
              msg := className ++ " must implement _call method" }
      ∧ APIClient.convert_inputs_to_api_kwargs className =
          PyResult.raised
            { excType := "NotImplementedError"
              msg := className ++ " must implement _combine_input_and_model_kwargs method" }
      ∧ APIClient.parse_chat_completion className =
          PyResult.raised
            { excType := "NotImplementedError"
              msg := className ++ " must implement parse_chat_completion method" } :=
  fun _ _ => ⟨rfl, rfl, rfl, rfl, rfl, rfl, rfl⟩

/-- Modelled from the spec: the three splits of the BBH_object_counting
dataset as produced by the BigBenchHard loader
(lightrag/datasets/big_bench_hard.py is not under src/), abstracted as lists
of samples. -/
structure BigBenchHardData (Sample : Type) where
  train : List Sample
  val : List Sample
  test : List Sample
deriving DecidableEq

/-- Modelled from the spec: subset_dataset (lightrag/utils/data.py is not
under src/) limits a dataset to max_samples samples. -/
def subset_dataset {Sample : Type} (data : List Sample) (max_samples : Nat) : List Sample :=
  data.take max_samples

/-- Python truthiness of the optional max_samples argument: None and 0 are
falsy, positive integers are truthy. -/
def pyTruthyNat : Option Nat → Bool
  | none => false
  | some 0 => false
  | some (_ + 1) => true

/-- Embedding of load_datasets (bhh_object_count/data.py): load the train,
val and test splits of BBH_object_counting and, when max_samples is truthy,
limit each split to max_samples samples. -/
def load_datasets {Sample : Type} (ds : BigBenchHardData Sample) (max_samples : Option Nat) :
    List Sample × List Sample × List Sample :=
  let train_data := ds.train
  let val_data := ds.val
  let test_data := ds.test
  if pyTruthyNat max_samples then
    (subset_dataset train_data (max_samples.getD 0),
      subset_dataset val_data (max_samples.getD 0),
      subset_dataset test_data (max_samples.getD 0))
  else
    (train_data, val_data, test_data)

/-- C7: load_datasets returns the train, val, test splits in that order; for
every positive max_samples each split is limited to max_samples samples, and
for None (or 0) all three splits come back unlimited. -/
theorem load_datasets_splits_and_limit :
    ∀ (Sample : Type) (ds : BigBenchHardData Sample),
      (∀ n : Nat, 0 < n →
        load_datasets ds (some n) = (ds.train.take n, ds.val.take n, ds.test.take n))
      ∧ load_datasets ds none = (ds.train, ds.val, ds.test)
      ∧ load_datasets ds (some 0) = (ds.train, ds.val, ds.test) := by
  intro Sample ds
  refine ⟨?_, rfl, rfl⟩
  intro n hn
  cases n with
  | zero => exact absurd hn (by decide)
  | succ m => rfl

/-- Witness for C7 on a concrete dataset with max_samples 2. -/
theorem load_datasets_splits_and_limit_witness :
    load_datasets { train := [10, 20, 30], val := [1], test := ([] : List Nat) } (some 2) =
      ([10, 20], [1], []) :=
  ((load_datasets_splits_and_limit Nat
      { train := [10, 20, 30], val := [1], test := [] }).1 2 (by decide)).trans (by decide)

/-- The whitespace characters Python str.strip and str.split treat as
spaces. -/
def isPySpace (c : Char) : Bool :=
  c = ' ' || c = '\t' || c = '\n' || c = '\r' || c = '\x0b' || c = '\x0c'

/-- Python str.isdigit, modelled on ASCII digits. -/
def isPyDigit (c : Char) : Bool :=
  '0' ≤ c && c ≤ '9'

/-- Python str.strip: drop whitespace from both ends. -/
def pyStrip (s : List Char) : List Char :=
  ((s.dropWhile isPySpace).reverse.dropWhile isPySpace).reverse

/-- Helper of pySplitWs: accumulate the current token in reverse. -/
def pySplitWsAux : List Char → List Char → List (List Char)
  | [], acc => if acc.isEmpty then [] else [acc.reverse]
  | c :: rest, acc =>
    if isPySpace c then
      if acc.isEmpty then pySplitWsAux rest []
      else acc.reverse :: pySplitWsAux rest []
    else pySplitWsAux rest (c :: acc)

/-- Python str.split with no separator: split on whitespace runs, discarding
empty tokens. -/
def pySplitWs (s : List Char) : List (List Char) :=
  pySplitWsAux s []

/-- Helper of pySplitOnChar: accumulate the current piece in reverse. -/
def pySplitOnCharAux (sep : Char) : List Char → List Char → List (List Char)
  | [], acc => [acc.reverse]
  | c :: rest, acc =>
    if c = sep then acc.reverse :: pySplitOnCharAux sep rest []
    else pySplitOnCharAux sep rest (c :: acc)

/-- Python str.split with a one character separator: empty pieces are
kept and at least one piece is always returned. -/
def pySplitOnChar (sep : Char) (s : List Char) : List (List Char) :=
  pySplitOnCharAux sep s []

/-- The value of an ASCII digit string, as Python int builds it. -/
def digitsToNat (ds : List Char) : Nat :=
  ds.foldl (fun a c => 10 * a + (c.toNat - 48)) 0

/-- Embedding of the first lines of _parse_integer_answer
(bhh_object_count/data.py): when only_first_line is set the stripped string
is split at newlines and the first piece is kept; the scanned text is then
stripped (again). -/
def parseScanned (answer : String) (only_first_line : Bool) : List Char :=
  let a :=
    if only_first_line then (pySplitOnChar '\n' (pyStrip answer.data)).headD []
    else answer.data
  pyStrip a

/-- Embedding of the token selection line of _parse_integer_answer: the
whitespace-separated tokens of the scanned text that contain a digit. -/
def parseDigitTokens (answer : String) (only_first_line : Bool) : List (List Char) :=
  (pySplitWs (parseScanned answer only_first_line)).filter (fun t => t.any isPyDigit)

/-- Embedding of the last three transformation lines of
_parse_integer_answer applied to the selected token: keep the part before the
first dot, keep its digits, and convert with int(); int of the empty string
raises ValueError, which the except branch maps to 0. -/
def parseTokenValue (tok : List Char) : Int :=
  match ((pySplitOnChar '.' tok).headD []).filter isPyDigit with
  | [] => 0
  | ds => Int.ofNat (digitsToNat ds)

/-- Embedding of _parse_integer_answer (bhh_object_count/data.py): selecting
from an empty token list raises IndexError, which the except branch maps
to 0. -/
def _parse_integer_answer (answer : String) (only_first_line : Bool) : Int :=
  match (parseDigitTokens answer only_first_line).getLast? with
  | none => 0
  | some tok => parseTokenValue tok

/-- From the words of the claim: the text scanned is the string itself, or
its first line when only_first_line is true. The source instead takes the
first line of the stripped string. -/
def claimScannedText (answer : String) (only_first_line : Bool) : List Char :=
  if only_first_line then (pySplitOnChar '\n' answer.data).headD []
  else answer.data

/-- From the words of the claim: the digit-containing tokens of the claimed
scanned text. -/
def claimDigitTokens (answer : String) (only_first_line : Bool) : List (List Char) :=
  (pySplitWs (claimScannedText answer only_first_line)).filter (fun t => t.any isPyDigit)

/-- C8 counterexample: on the string made of a newline followed by 2, with
only_first_line true, the first line of the string is empty, so by the claim
there is no digit-containing token and the result should be 0; the code
strips the string before splitting lines and returns 2. -/
theorem parse_integer_answer_claim_counterexample :
    claimDigitTokens "\n2" true = []
    ∧ _parse_integer_answer "\n2" true = 2
    ∧ _parse_integer_answer "\n2" true ≠ 0 :=
  ⟨rfl, rfl, by decide⟩

theorem parseTokenValue_nonneg (tok : List Char) : 0 ≤ parseTokenValue tok := by
  unfold parseTokenValue
  cases h : ((pySplitOnChar '.' tok).headD []).filter isPyDigit with
  | nil => simp
  | cons c cs => simp

/-- C8 (amended): for every input string and flag, _parse_integer_answer
terminates and returns a non-negative integer; it returns 0 whenever the
scanned text (the stripped string, or the first line of the stripped string
when only_first_line is true) has no whitespace-separated token containing a
digit, and otherwise returns the value of the last digit-containing token:
the integer formed by the digits before its first dot, falling back to 0 when
no digits remain. -/
theorem parse_integer_answer_safe :
    ∀ (answer : String) (only_first_line : Bool),
      0 ≤ _parse_integer_answer answer only_first_line
      ∧ (parseDigitTokens answer only_first_line = [] →
          _parse_integer_answer answer only_first_line = 0)
      ∧ (∀ tok : List Char,
          (parseDigitTokens answer only_first_line).getLast? = some tok →
            _parse_integer_answer answer only_first_line = parseTokenValue tok) := by
  intro answer only_first_line
  refine ⟨?_, ?_, ?_⟩
  · unfold _parse_integer_answer
    cases h : (parseDigitTokens answer only_first_line).getLast? with
    | none => simp
    | some tok => simpa using parseTokenValue_nonneg tok
  · intro h
    unfold _parse_integer_answer
    rw [h]
    rfl
  · intro tok h
    unfold _parse_integer_answer
    rw [h]

/-- Witness for C8: the no-digit-token hypothesis and the last-token
hypothesis discharged on concrete inputs. -/
theorem parse_integer_answer_safe_witness :
    _parse_integer_answer "no digits at all" false = 0
    ∧ _parse_integer_answer "I count 12.5 apples" false = parseTokenValue ("12.5".data)
    ∧ parseTokenValue ("12.5".data) = 12 :=
  ⟨(parse_integer_answer_safe "no digits at all" false).2.1 rfl,
   (parse_integer_answer_safe "I count 12.5 apples" false).2.2 ("12.5".data) rfl,
   rfl⟩
